import Mathlib

/-!
Verification development for the ao-agent chat backend.

The definitions below are shallow embeddings of the TypeScript source of the
repository: `GeminiService` (retry/backoff, model switching), the
`ChatController` (tool-call extraction, tool invocation loop with LLM
self-correction, REST and SSE send-message flows, anonymous chat registry
sweep, anonymous chat migration).  External collaborators (the Gemini model,
the database, the MCP server) are modelled as oracle environments; machine
times are naturals (milliseconds); JavaScript exceptions are `Except`.
-/

namespace AoAgent

/-! ## String helpers (JavaScript string primitives used by the source) -/

/-- The character `\x7b` (left curly brace), written via its code point. -/
def lbrace : Char := Char.ofNat 123

/-- The character `\x7d` (right curly brace), written via its code point. -/
def rbrace : Char := Char.ofNat 125

/-- Boolean list prefix test. -/
def isPrefixOfB : List Char → List Char → Bool
  | [], _ => true
  | _ :: _, [] => false
  | a :: as, b :: bs => a == b && isPrefixOfB as bs

/-- Substring containment on character lists: JavaScript `String.prototype.includes`. -/
def containsSub (pat : List Char) : List Char → Bool
  | [] => pat.isEmpty
  | c :: rest => isPrefixOfB pat (c :: rest) || containsSub pat rest

/-- JavaScript `s.includes(pat)`. -/
def strIncludes (s pat : String) : Bool := containsSub pat.data s.data

/-- JavaScript `String.prototype.toLowerCase` (ASCII range, which is all the
source's retryable-error patterns use). -/
def toLowerStr (s : String) : String := String.mk (s.data.map Char.toLower)

/-! ## Data model (`types/shared.ts`) -/

/-- Message roles. -/
inductive MessageRole where
  | user
  | assistant
  | system
deriving DecidableEq, Repr

/-- A chat message.  `createdAt` is a millisecond timestamp. -/
structure Message where
  id : String
  chatId : String
  role : MessageRole
  content : String
  createdAt : Nat
deriving DecidableEq, Repr

/-- An anonymous (ephemeral) chat held in the controller's in-memory map.
`createdAt`/`updatedAt` are millisecond timestamps. -/
structure AnonymousChat where
  id : String
  title : String
  messages : List Message
  createdAt : Nat
  updatedAt : Nat
deriving DecidableEq, Repr

/-! ## GeminiService: error classification, backoff, retry
(`services/geminiService.ts`) -/

/-- The substring patterns `GeminiService.isRetryableError` matches against
(source list, verbatim). -/
def retryablePatterns : List String :=
  ["503 Service Unavailable",
   "The model is overloaded",
   "Rate limit exceeded",
   "Quota exceeded",
   "Internal server error",
   "Bad Gateway",
   "Gateway Timeout",
   "Service Unavailable",
   "Too Many Requests"]

/-- Source `GeminiService.isRetryableError`: case-insensitive substring match of the
error message against the fixed pattern list. -/
def isRetryableError (errorMessage : String) : Bool :=
  retryablePatterns.any fun pattern =>
    strIncludes (toLowerStr errorMessage) (toLowerStr pattern)

/-- Source `GeminiService.calculateRetryDelay`: `min(retryDelay * 2^attempt + jitter, 30000)`.
The source draws `jitter = Math.random() * 1000`; here it is an explicit
parameter (a rational, standing for the real random draw). -/
def calculateRetryDelay (retryDelay : ℚ) (attempt : Nat) (jitter : ℚ) : ℚ :=
  min (retryDelay * 2 ^ attempt + jitter) 30000

/-- Default `GEMINI_RETRY_ATTEMPTS` (source default `'3'`). -/
def defaultRetryAttempts : Nat := 3

/-- Oracle for the underlying Gemini model call: `call n` is the outcome of the
n-th invocation of the whole per-attempt try block (history conversion, chat
session, `chat.sendMessage`), `.error` carrying the thrown error's message. -/
structure GeminiEnv where
  call : Nat → Except String String

/-- Source `GeminiService.sendMessageWithRetry`: on a retryable error below the
attempt budget, recurse with `attempt + 1`; otherwise wrap and rethrow.  The
second component counts how many underlying invocations were performed (an
observable of `env.call`). -/
def sendMessageWithRetry (env : GeminiEnv) (retryAttempts : Nat) (attempt : Nat) :
    Except String String × Nat :=
  match env.call attempt with
  | .ok text => (.ok text, 1)
  | .error e =>
    if h : isRetryableError e = true ∧ attempt < retryAttempts then
      let r := sendMessageWithRetry env retryAttempts (attempt + 1)
      (r.1, r.2 + 1)
    else
      (.error ("Failed to get response from Gemini: " ++ e), 1)
termination_by retryAttempts - attempt
decreasing_by
  simp_wf
  omega

/-- Source `GeminiService.sendMessage`: retry loop started at attempt 0. -/
def sendMessage (env : GeminiEnv) (retryAttempts : Nat) : Except String String × Nat :=
  sendMessageWithRetry env retryAttempts 0

/-- Source `GeminiService.sendMessageWithFallback` simply delegates to `sendMessage`
(the source removed the fallback; errors propagate to the controller). -/
def sendMessageWithFallback (env : GeminiEnv) (retryAttempts : Nat) :
    Except String String × Nat :=
  sendMessage env retryAttempts

/-! ## GeminiService: model selection -/

/-- Per-model generation configuration (source values `0.7`, `0.8`, `40`,
`2048`, identical at initialization and on every switch). -/
structure GenerationConfig where
  temperature : ℚ
  topP : ℚ
  topK : Nat
  maxOutputTokens : Nat
deriving DecidableEq, Repr

/-- The fixed generation configuration the source passes to
`getGenerativeModel`. -/
def defaultGenerationConfig : GenerationConfig :=
  { temperature := 7/10, topP := 4/5, topK := 40, maxOutputTokens := 2048 }

/-- An instantiated generative model: its name plus configuration. -/
structure ModelConfig where
  name : String
  config : GenerationConfig
deriving DecidableEq, Repr

/-- The mutable `this.model` state of the service (`none` before
`initialize`). -/
structure GeminiState where
  model : Option ModelConfig
deriving DecidableEq, Repr

/-- Source `GeminiService.initialize`: a no-op when a model is already instantiated,
otherwise instantiates the default `gemini-2.5-flash` model. -/
def initializeState (st : GeminiState) : GeminiState :=
  match st.model with
  | some _ => st
  | none => { model := some { name := "gemini-2.5-flash", config := defaultGenerationConfig } }

/-- Source `GeminiService.getAvailableModels`. -/
def getAvailableModels : List String := ["gemini-2.5-flash", "gemini-2.5-pro"]

/-- The message of the error thrown for an unknown model name. -/
def invalidModelMessage (modelName : String) : String :=
  "Model " ++ modelName ++ " is not available. Available models: " ++
    String.intercalate ", " getAvailableModels

/-- Source `GeminiService.switchModel`: initialize, validate against the allow-list,
then reassign `this.model`.  Returns the post-call state and the thrown error
message, if any (the throw happens before any reassignment). -/
def switchModel (st : GeminiState) (modelName : String) : GeminiState × Option String :=
  let st1 := initializeState st
  if getAvailableModels.contains modelName then
    ({ model := some { name := modelName, config := defaultGenerationConfig } }, none)
  else
    (st1, some (invalidModelMessage modelName))

/-! ## JSON values and `JSON.parse` (ECMAScript semantics, used by
`ChatController.extractToolCalls`) -/

/-- JSON values as produced by `JSON.parse`.  Numeric literals are kept as
their source lexeme: none of the verified properties inspects a numeric value,
only grammar-level success or failure and string contents. -/
inductive Json where
  | null : Json
  | bool (b : Bool) : Json
  | num (lexeme : String) : Json
  | str (s : String) : Json
  | arr (elems : List Json) : Json
  | obj (members : List (String × Json)) : Json
deriving Repr

/-- JSON insignificant whitespace: space, tab, line feed, carriage return. -/
def isJsonWs (c : Char) : Bool :=
  c = ' ' || c = '\t' || c = '\n' || c = Char.ofNat 13

/-- Drop leading JSON whitespace. -/
def skipJsonWs : List Char → List Char
  | [] => []
  | c :: rest => if isJsonWs c then skipJsonWs rest else c :: rest

/-- Value of a hexadecimal digit. -/
def hexDigitVal (c : Char) : Option Nat :=
  if c.isDigit then some (c.toNat - 48)
  else if 97 ≤ c.toNat ∧ c.toNat ≤ 102 then some (c.toNat - 87)
  else if 65 ≤ c.toNat ∧ c.toNat ≤ 70 then some (c.toNat - 55)
  else none

/-- Decoding of a two-character JSON escape. -/
def simpleEscape (e : Char) : Option Char :=
  if e = '"' then some '"'
  else if e = '\\' then some '\\'
  else if e = '/' then some '/'
  else if e = 'b' then some (Char.ofNat 8)
  else if e = 'f' then some (Char.ofNat 12)
  else if e = 'n' then some '\n'
  else if e = 'r' then some (Char.ofNat 13)
  else if e = 't' then some '\t'
  else none

/-- Body of a JSON string literal, entered just after the opening quote;
returns the decoded characters and the input after the closing quote. -/
def parseStringBody : List Char → Except String (List Char × List Char)
  | [] => Except.error "Unterminated string in JSON"
  | c :: rest =>
    if c = '"' then Except.ok ([], rest)
    else if c = '\\' then
      match rest with
      | [] => Except.error "Bad escape in JSON"
      | e :: rest2 =>
        if e = 'u' then
          match rest2 with
          | h1 :: h2 :: h3 :: h4 :: rest6 =>
            match hexDigitVal h1, hexDigitVal h2, hexDigitVal h3, hexDigitVal h4 with
            | some a, some b, some c2, some d =>
              match parseStringBody rest6 with
              | Except.ok (cs, r) =>
                Except.ok (Char.ofNat (((a * 16 + b) * 16 + c2) * 16 + d) :: cs, r)
              | Except.error m => Except.error m
            | _, _, _, _ => Except.error "Bad unicode escape in JSON"
          | _ => Except.error "Bad unicode escape in JSON"
        else
          match simpleEscape e with
          | some d =>
            match parseStringBody rest2 with
            | Except.ok (cs, r) => Except.ok (d :: cs, r)
            | Except.error m => Except.error m
          | none => Except.error "Bad escape in JSON"
    else if c.toNat < 32 then Except.error "Bad control character in JSON string"
    else
      match parseStringBody rest with
      | Except.ok (cs, r) => Except.ok (c :: cs, r)
      | Except.error m => Except.error m

/-- Longest leading run of decimal digits. -/
def takeDigits : List Char → List Char × List Char
  | [] => ([], [])
  | c :: rest =>
    if c.isDigit then
      let p := takeDigits rest
      (c :: p.1, p.2)
    else ([], c :: rest)

/-- Integer part of a JSON number: `0`, or a nonzero digit followed by digits. -/
def parseIntPart : List Char → Except String (List Char × List Char)
  | [] => Except.error "Bad number in JSON"
  | c :: rest =>
    if c = '0' then Except.ok (['0'], rest)
    else if c.isDigit then
      let p := takeDigits rest
      Except.ok (c :: p.1, p.2)
    else Except.error "Bad number in JSON"

/-- Optional fraction part of a JSON number. -/
def parseFracPart (s : List Char) : Except String (List Char × List Char) :=
  match s with
  | '.' :: c :: rest2 =>
    if c.isDigit then
      let p := takeDigits rest2
      Except.ok ('.' :: c :: p.1, p.2)
    else Except.error "Bad number in JSON"
  | '.' :: [] => Except.error "Bad number in JSON"
  | _ => Except.ok ([], s)

/-- Optional exponent part of a JSON number. -/
def parseExpPart (s : List Char) : Except String (List Char × List Char) :=
  match s with
  | c :: rest =>
    if c = 'e' ∨ c = 'E' then
      let p : List Char × List Char :=
        match rest with
        | s2 :: r2 => if s2 = '+' ∨ s2 = '-' then ([s2], r2) else ([], rest)
        | [] => ([], rest)
      match p.2 with
      | d :: rest3 =>
        if d.isDigit then
          let q := takeDigits rest3
          Except.ok (c :: p.1 ++ d :: q.1, q.2)
        else Except.error "Bad number in JSON"
      | [] => Except.error "Bad number in JSON"
    else Except.ok ([], s)
  | [] => Except.ok ([], s)

/-- A full JSON number lexeme (sign, integer, fraction, exponent). -/
def parseNumber (s : List Char) : Except String (List Char × List Char) :=
  let p : List Char × List Char :=
    match s with
    | c :: rest => if c = '-' then (['-'], rest) else ([], s)
    | [] => ([], s)
  match parseIntPart p.2 with
  | Except.error m => Except.error m
  | Except.ok (ip, s2) =>
    match parseFracPart s2 with
    | Except.error m => Except.error m
    | Except.ok (fp, s3) =>
      match parseExpPart s3 with
      | Except.error m => Except.error m
      | Except.ok (ep, s4) => Except.ok (p.1 ++ ip ++ fp ++ ep, s4)

/-- Grammar position of the recursive-descent JSON parser: a value, the member
list of an object (after the opening brace or a comma), or the element list of
an array. -/
inductive JMode where
  | value : JMode
  | objBody (acc : List (String × Json)) : JMode
  | arrBody (acc : List Json) : JMode

/-- Recursive-descent JSON parser, structurally recursive on its fuel (the
fuel dominates the nesting depth; `jsonParse` supplies enough of it for any
input). -/
def parseJsonAux : Nat → JMode → List Char → Except String (Json × List Char)
  | 0, _, _ => Except.error "JSON nesting too deep"
  | fuel + 1, JMode.value, s =>
    match skipJsonWs s with
    | [] => Except.error "Unexpected end of JSON input"
    | c :: rest =>
      if c = lbrace then parseJsonAux fuel (JMode.objBody []) rest
      else if c = '[' then parseJsonAux fuel (JMode.arrBody []) rest
      else if c = '"' then
        match parseStringBody rest with
        | Except.ok (cs, r) => Except.ok (Json.str (String.mk cs), r)
        | Except.error m => Except.error m
      else if isPrefixOfB "true".data (c :: rest) then
        Except.ok (Json.bool true, (c :: rest).drop 4)
      else if isPrefixOfB "false".data (c :: rest) then
        Except.ok (Json.bool false, (c :: rest).drop 5)
      else if isPrefixOfB "null".data (c :: rest) then
        Except.ok (Json.null, (c :: rest).drop 4)
      else if c = '-' ∨ c.isDigit then
        match parseNumber (c :: rest) with
        | Except.ok (lex, r) => Except.ok (Json.num (String.mk lex), r)
        | Except.error m => Except.error m
      else Except.error "Unexpected token in JSON"
  | fuel + 1, JMode.objBody acc, s =>
    match skipJsonWs s with
    | [] => Except.error "Unterminated object in JSON"
    | c :: rest =>
      if c = rbrace then
        if acc.isEmpty then Except.ok (Json.obj [], rest)
        else Except.error "Trailing comma in JSON object"
      else if c = '"' then
        match parseStringBody rest with
        | Except.error m => Except.error m
        | Except.ok (key, r1) =>
          match skipJsonWs r1 with
          | ':' :: r2 =>
            match parseJsonAux fuel JMode.value r2 with
            | Except.error m => Except.error m
            | Except.ok (v, r3) =>
              match skipJsonWs r3 with
              | ',' :: r4 => parseJsonAux fuel (JMode.objBody (acc ++ [(String.mk key, v)])) r4
              | c2 :: r4 =>
                if c2 = rbrace then Except.ok (Json.obj (acc ++ [(String.mk key, v)]), r4)
                else Except.error "Expected comma or closing brace in JSON object"
              | [] => Except.error "Unterminated object in JSON"
          | _ => Except.error "Expected colon in JSON object"
      else Except.error "Expected string key in JSON object"
  | fuel + 1, JMode.arrBody acc, s =>
    match skipJsonWs s with
    | [] => Except.error "Unterminated array in JSON"
    | ']' :: rest =>
      if acc.isEmpty then Except.ok (Json.arr [], rest)
      else Except.error "Trailing comma in JSON array"
    | s0 =>
      match parseJsonAux fuel JMode.value s0 with
      | Except.error m => Except.error m
      | Except.ok (v, r1) =>
        match skipJsonWs r1 with
        | ',' :: r2 => parseJsonAux fuel (JMode.arrBody (acc ++ [v])) r2
        | ']' :: r2 => Except.ok (Json.arr (acc ++ [v]), r2)
        | _ => Except.error "Expected comma or closing bracket in JSON array"

/-- A complete JSON value parse at top level. -/
def parseJsonValue (fuel : Nat) (s : List Char) : Except String (Json × List Char) :=
  parseJsonAux fuel JMode.value s

/-- Source `JSON.parse`: parse one value and require only whitespace to follow;
`.error` stands for the thrown `SyntaxError`. -/
def jsonParse (text : String) : Except String Json :=
  match parseJsonValue (text.length + 1) text.data with
  | Except.error m => Except.error m
  | Except.ok (v, rest) =>
    match skipJsonWs rest with
    | [] => Except.ok v
    | _ => Except.error "Unexpected non-whitespace character after JSON data"

/-! ## Tool-call extraction (`ChatController.extractToolCalls`) -/

/-- A parsed tool-call directive. -/
structure ToolCall where
  toolName : String
  arguments : Json
deriving Repr

/-- JavaScript regex `\w`: ASCII letters, digits, underscore. -/
def isWordChar (c : Char) : Bool := c.isAlphanum || c = '_'

/-- JavaScript regex `\s` (the variants that can occur here): space, tab, line
feed, carriage return, vertical tab, form feed, no-break space. -/
def isJsWs (c : Char) : Bool :=
  c = ' ' || c = '\t' || c = '\n' || c = Char.ofNat 13 ||
    c = Char.ofNat 11 || c = Char.ofNat 12 || c = Char.ofNat 160

/-- JavaScript `String.prototype.trim` over the whitespace classes above
(Lean's own `String.trim` is not used: the embedding works on character
lists). -/
def jsTrim (s : String) : String :=
  String.mk (((s.data.dropWhile isJsWs).reverse.dropWhile isJsWs).reverse)

/-- Number of leading `\s` characters. -/
def skipWsCount : List Char → Nat
  | [] => 0
  | c :: rest => if isJsWs c then skipWsCount rest + 1 else 0

/-- The source's whitespace-skipping loop: first index `≥ i` in `s` holding a
non-`\s` character (or the length of `s`). -/
def skipWsFrom (s : List Char) (i : Nat) : Nat := i + skipWsCount (s.drop i)

/-- JavaScript `response[i]` (`none` when out of range). -/
def charAt (s : List Char) (i : Nat) : Option Char := (s.drop i).head?

/-- One attempted match of the marker regex `TOOL_CALL:(\w+):` anchored at the
head of `s`: the captured name and the matched length. -/
def matchMarkerAt (s : List Char) : Option (List Char × Nat) :=
  if isPrefixOfB "TOOL_CALL:".data s then
    let after := s.drop 10
    let name := after.takeWhile isWordChar
    match after.drop name.length with
    | c :: _ => if c = ':' ∧ name ≠ [] then some (name, name.length + 11) else none
    | [] => none
  else none

/-- Source `toolCallMarkerRegex.exec` from absolute index `idx`: leftmost marker match
in the given suffix, returning the match index, tool name and match end. -/
def findMarkerAux : List Char → Nat → Option (Nat × List Char × Nat)
  | [], _ => none
  | c :: rest, idx =>
    match matchMarkerAt (c :: rest) with
    | some (name, len) => some (idx, name, idx + len)
    | none => findMarkerAux rest (idx + 1)

/-- The source's brace-counting loop over the suffix starting at absolute index
`idx` with current depth `count`: the absolute index of the brace closing the
outermost `\x7b`, or `none` when the braces never rebalance.  Braces inside
string literals are counted too, exactly as in the source. -/
def braceScan : List Char → Nat → Nat → Option Nat
  | [], _, _ => none
  | c :: rest, idx, count =>
    if c = lbrace then braceScan rest (idx + 1) (count + 1)
    else if c = rbrace then
      if count = 1 then some idx
      else braceScan rest (idx + 1) (count - 1)
    else braceScan rest (idx + 1) count

/-- The `while ((match = toolCallMarkerRegex.exec(response)) !== null)` loop of
`extractToolCalls`: find the next marker, skip whitespace, require an opening
brace, find its matching closing brace, `JSON.parse` the delimited text, and on
any of those failing skip this directive and continue from the end of the
marker.  `fuel` bounds the number of iterations; markers are at least twelve
characters long, so the caller's `length + 1` is ample. -/
def extractLoopAux (s : List Char) (fuel : Nat) (lastIdx : Nat) : List ToolCall :=
  match fuel with
  | 0 => []
  | fuel + 1 =>
    match findMarkerAux (s.drop lastIdx) lastIdx with
    | none => []
    | some (_, name, mEnd) =>
      let proceed := extractLoopAux s fuel mEnd
      let jsonStart := skipWsFrom s mEnd
      match charAt s jsonStart with
      | some c =>
        if c = lbrace then
          match braceScan (s.drop jsonStart) jsonStart 0 with
          | some jsonEnd =>
            let jsonStr := String.mk ((s.drop jsonStart).take (jsonEnd + 1 - jsonStart))
            match jsonParse jsonStr with
            | Except.ok args => { toolName := String.mk name, arguments := args } :: proceed
            | Except.error _ => proceed
          | none => proceed
        else proceed
      | none => proceed

/-- Source `ChatController.extractToolCalls`. -/
def extractToolCalls (response : String) : List ToolCall :=
  extractLoopAux response.data (response.length + 1) 0

/-! ## Ephemeral chat registry sweep (`ChatController.startAnonymousChatCleanup`) -/

/-- Source `ANONYMOUS_CHAT_TIMEOUT`: one hour in milliseconds. -/
def ANONYMOUS_CHAT_TIMEOUT : Nat := 60 * 60 * 1000

/-- The sweep interval: thirty minutes in milliseconds. -/
def CLEANUP_INTERVAL : Nat := 30 * 60 * 1000

/-- One sweep cycle of the cleanup interval at time `now`: the source collects
every chat with `now - chat.createdAt.getTime() > ANONYMOUS_CHAT_TIMEOUT` and
deletes it from the map; the registry is modelled as the list of entries. -/
def cleanupSweep (now : Nat) (registry : List AnonymousChat) : List AnonymousChat :=
  registry.filter fun chat => !(decide (ANONYMOUS_CHAT_TIMEOUT < now - chat.createdAt))

/-! ## Tool invocation loop (`ChatController.executeToolCallsAndRespond`,
`ChatController.retryWithLLMCorrection`, `ChatController.processWithMCPIntegration`) -/

/-- Source `MAX_RETRIES` from `executeToolCallsAndRespond`. -/
def MAX_RETRIES : Nat := 2

/-- Oracles for the external collaborators of the tool loop, indexed by the
correction stage (`retryCount`): the MCP `callTool` outcome for a given tool
call, the LLM interpretation of collected tool results, the
`getMCPToolsContext` fetch, and the LLM correction response for a given error
message.  An `Except.error` stands for a thrown exception. -/
structure ToolLoopEnv where
  callTool : Nat → ToolCall → Except String String
  interpret : Nat → List String → Except String String
  mcpContext : Nat → Except String String
  correction : Nat → List ToolCall → String → Except String String

/-- The `for (const toolCall of toolCalls)` loop of the try block: execute each
call in order, collecting `Tool <name>: <result>` labels; the first throw
aborts the batch. -/
def runToolBatch (env : ToolLoopEnv) (stage : Nat) : List ToolCall → Except String (List String)
  | [] => Except.ok []
  | tc :: rest =>
    match env.callTool stage tc with
    | Except.error e => Except.error e
    | Except.ok result =>
      match runToolBatch env stage rest with
      | Except.error e => Except.error e
      | Except.ok rs => Except.ok (("Tool " ++ tc.toolName ++ ": " ++ result) :: rs)

/-- The whole try block of `executeToolCallsAndRespond`: run the batch, then
ask the LLM to interpret the results. -/
def attemptOutcome (env : ToolLoopEnv) (stage : Nat) (toolCalls : List ToolCall) :
    Except String String :=
  match runToolBatch env stage toolCalls with
  | Except.error e => Except.error e
  | Except.ok toolResults => env.interpret stage toolResults

/-- The catch of `retryWithLLMCorrection`: a normal result passes through, any
thrown error is replaced by the fixed correction-attempt error.  The attempt
count is unchanged. -/
def catchCorrection (r : Except String String × Nat) : Except String String × Nat :=
  match r.1 with
  | Except.ok c => (Except.ok c, r.2)
  | Except.error _ =>
    (Except.error "Error occurred during LLM error correction attempt", r.2)

mutual

/-- Source `ChatController.executeToolCallsAndRespond`.  The second component counts
how many times the tool-batch try block was entered (the initial attempt plus
one per correction cycle).  The source throws
`MCP tool execution failed after maximum retry attempts` once the budget is
exhausted. -/
def executeToolCallsAndRespond (env : ToolLoopEnv) (toolCalls : List ToolCall)
    (retryCount : Nat) : Except String String × Nat :=
  match attemptOutcome env retryCount toolCalls with
  | Except.ok content => (Except.ok content, 1)
  | Except.error e =>
    if h : retryCount < MAX_RETRIES then
      let r := retryWithLLMCorrection env toolCalls e retryCount h
      (r.1, r.2 + 1)
    else
      (Except.error "MCP tool execution failed after maximum retry attempts", 1)
termination_by 2 * (MAX_RETRIES - retryCount) + 1

/-- Source `ChatController.retryWithLLMCorrection`.  Every failure inside its try
block — context fetch or correction call throwing, the give-up marker
`ERROR_UNABLE_TO_FIX`, an unparseable correction, or a failure of the restarted
execution — is caught by its own catch and rethrown as the fixed correction
error.  The proof `hlt` records the source invariant that the correction cycle is
only entered below the retry budget.  The second component counts tool-batch
attempts made by the restarted execution. -/
def retryWithLLMCorrection (env : ToolLoopEnv) (toolCalls : List ToolCall)
    (e : String) (retryCount : Nat) (hlt : retryCount < MAX_RETRIES) :
    Except String String × Nat :=
  catchCorrection
    (match env.mcpContext retryCount with
     | Except.error m => (Except.error m, 0)
     | Except.ok _ =>
       match env.correction retryCount toolCalls e with
       | Except.error m => (Except.error m, 0)
       | Except.ok corr =>
         if strIncludes corr "ERROR_UNABLE_TO_FIX" then
           (Except.error "LLM was unable to correct the MCP tool call arguments", 0)
         else
           match extractToolCalls corr with
           | [] => (Except.error "LLM did not provide a corrected tool call", 0)
           | tc :: rest => executeToolCallsAndRespond env (tc :: rest) (retryCount + 1))
termination_by 2 * (MAX_RETRIES - retryCount)

end

/-- Oracles for `processWithMCPIntegration` beyond the tool loop: the initial
`getMCPToolsContext` fetch, the initial LLM response to the enhanced prompt,
and the plain (non-tool) `sendMessageWithFallback` completion used by the
catch. -/
structure MCPIntegrationEnv extends ToolLoopEnv where
  initialContext : Except String String
  initialLLM : Except String String
  fallback : Except String String

/-- The try block of `processWithMCPIntegration`: fetch the tools context, ask
the LLM, extract directives; with none, return the LLM text verbatim,
otherwise run the tool loop at `retryCount = 0`. -/
def mcpTryPath (env : MCPIntegrationEnv) : Except String String :=
  match env.initialContext with
  | Except.error m => Except.error m
  | Except.ok _ =>
    match env.initialLLM with
    | Except.error m => Except.error m
    | Except.ok llmResponse =>
      match extractToolCalls llmResponse with
      | [] => Except.ok llmResponse
      | tc :: rest => (executeToolCallsAndRespond env.toToolLoopEnv (tc :: rest) 0).1

/-- Source `ChatController.processWithMCPIntegration`: any error of the try block is
caught and replaced by the plain LLM completion. -/
def processWithMCPIntegration (env : MCPIntegrationEnv) : Except String String :=
  match mcpTryPath env with
  | Except.ok content => Except.ok content
  | Except.error _ => env.fallback

/-! ## REST error envelopes -/

/-- Modelled from the spec: `utils/responseHelpers.ts` is not under `src/`
(only its call sites are).  Per spec section 6 the error envelope is
`success:false` with `message`, optional `errorType`, optional `retryAfter`
seconds and optional `chatId`; the success envelope carries the payload. -/
inductive ApiResp (α : Type) where
  | success (status : Nat) (data : α)
  | failure (status : Nat) (message : String) (errorType : Option String)
      (retryAfter : Option Nat) (chatId : Option String)
deriving DecidableEq, Repr

/-- Source `ResponseHelper.badRequest`. -/
def badRequest {α : Type} (message : String) : ApiResp α :=
  ApiResp.failure 400 message none none none

/-- Source `ResponseHelper.notFound`. -/
def notFound {α : Type} (message : String) : ApiResp α :=
  ApiResp.failure 404 message none none none

/-- Source `ResponseHelper.internalError`. -/
def internalError {α : Type} (message : String) : ApiResp α :=
  ApiResp.failure 500 message none none none

/-- Source `ResponseHelper.serviceUnavailable`. -/
def serviceUnavailable {α : Type} (message : String) (errorType : String)
    (retryAfter : Option Nat) (chatId : Option String) : ApiResp α :=
  ApiResp.failure 503 message (some errorType) retryAfter chatId

/-- Error text used for LLM failures after an initial message of a new chat. -/
def llmUnavailableInitialMessage : String :=
  "The AI service is temporarily unavailable. The chat was created but the AI could not respond."

/-- Error text used for LLM failures when sending to an existing chat; the
streaming handlers embed the same text in their `error` events. -/
def llmUnavailableMessage : String :=
  "The AI service is temporarily unavailable. Please try again in a few moments."

/-- Source `ChatController.handleLLMError`: a 503 envelope whose `chatId` is exactly
the (optional) argument the call site passes. -/
def handleLLMError {α : Type} (chatId : Option String) (isInitialMessage : Bool) : ApiResp α :=
  serviceUnavailable
    (if isInitialMessage then llmUnavailableInitialMessage else llmUnavailableMessage)
    "LLM_UNAVAILABLE"
    (if isInitialMessage then none else some 60)
    chatId

/-! ## REST send-message flows (`ChatController.sendMessage`,
`ChatController.sendAnonymousMessage`) -/

/-- Oracles for the authenticated REST flow: whether the chat lookup succeeds,
the outcome of `getAIMessageResponse`, and the database record built for the
assistant message with a given content. -/
structure RestEnv where
  chatFound : Bool
  aiResponse : Except String String
  assistantRecord : String → Message

/-- Observable outcome of a REST send: the HTTP response, and whether the user
and assistant messages are persisted when the handler returns. -/
structure RestOutcome where
  response : ApiResp Message
  userPersisted : Bool
  assistantPersisted : Bool
deriving DecidableEq, Repr

/-- Generation-and-persistence phase of `sendMessage`, entered after the user
message has been written: on an LLM failure the inner catch answers
`handleLLMError(res, error)` — with no chat id — and the user message stays in
the database. -/
def sendMessageGenPhase (env : RestEnv) : RestOutcome :=
  match env.aiResponse with
  | Except.ok content =>
    { response := ApiResp.success 200 (env.assistantRecord content),
      userPersisted := true, assistantPersisted := true }
  | Except.error _ =>
    { response := handleLLMError none false,
      userPersisted := true, assistantPersisted := false }

/-- Source `ChatController.sendMessage`: validate content, resolve the chat, switch
model (an invalid model is caught by the outer catch, which answers 400 since
the message contains `Model`), persist the user message, then generate. -/
def sendMessageFlow (env : RestEnv) (content : String) (model : Option String) : RestOutcome :=
  if jsTrim content = "" then
    { response := badRequest "Message content is required",
      userPersisted := false, assistantPersisted := false }
  else if !env.chatFound then
    { response := notFound "Chat not found",
      userPersisted := false, assistantPersisted := false }
  else
    match model with
    | some m =>
      if getAvailableModels.contains m then sendMessageGenPhase env
      else
        { response := badRequest (invalidModelMessage m),
          userPersisted := false, assistantPersisted := false }
    | none => sendMessageGenPhase env

/-- Oracles for the anonymous REST flow: the user `Message` record built by the
handler, the LLM outcome, the assistant record for a given content, and the
`Date.now()` used for `updatedAt` bumps. -/
structure AnonRestEnv where
  userMessage : Message
  aiResponse : Except String String
  assistantRecord : String → Message
  now : Nat

/-- Observable outcome of an anonymous REST send: the HTTP response and the
chat entry as left in the in-memory registry. -/
structure AnonRestOutcome where
  response : ApiResp Message
  finalChat : Option AnonymousChat
deriving DecidableEq, Repr

/-- Generation phase of `sendAnonymousMessage`, entered with the user message
already appended to the in-memory chat. -/
def sendAnonymousGenPhase (env : AnonRestEnv) (chat : AnonymousChat) : AnonRestOutcome :=
  match env.aiResponse with
  | Except.ok content =>
    let assistant := env.assistantRecord content
    { response := ApiResp.success 200 assistant,
      finalChat := some { chat with
        messages := chat.messages ++ [env.userMessage, assistant],
        updatedAt := env.now } }
  | Except.error _ =>
    { response := handleLLMError none false,
      finalChat := some { chat with messages := chat.messages, updatedAt := env.now } }

/-- Source `ChatController.sendAnonymousMessage`: validate, resolve the chat in the
registry, switch model, push the user message, then generate; on an LLM
failure the inner catch pops the user message (`messages.pop()`) before
answering `handleLLMError(res, error)` with no chat id. -/
def sendAnonymousMessageFlow (env : AnonRestEnv) (chat? : Option AnonymousChat)
    (content : String) (model : Option String) : AnonRestOutcome :=
  if jsTrim content = "" then
    { response := badRequest "Message content is required", finalChat := chat? }
  else
    match chat? with
    | none => { response := notFound "Anonymous chat not found", finalChat := none }
    | some chat =>
      match model with
      | some m =>
        if getAvailableModels.contains m then sendAnonymousGenPhase env chat
        else
          { response := badRequest (invalidModelMessage m), finalChat := some chat }
      | none => sendAnonymousGenPhase env chat

/-! ## Streaming send-message flows (`ChatController.sendMessageStream`,
`ChatController.sendAnonymousMessageStream`) -/

/-- The three SSE event payload shapes of the source: `chunk` carries partial
text, `done` the persisted assistant message, `error` exactly one string
field. -/
inductive SSEEvent where
  | chunk (content : String)
  | done (message : Message)
  | errorEvent (error : String)
deriving DecidableEq, Repr

/-- Oracles for the authenticated streaming flow: whether the chat lookup
succeeds, the fragments the model stream yields, whether the stream then
aborts with an error (instead of ending normally), and the database record
built for the assistant message with a given content. -/
structure StreamEnv where
  chatFound : Bool
  chunks : List String
  aborts : Bool
  assistantRecord : String → Message

/-- Observable outcome of a streaming send: the SSE events written to the
channel in order, and the persistence flags. -/
structure StreamOutcome where
  events : List SSEEvent
  userPersisted : Bool
  assistantPersisted : Bool
deriving DecidableEq, Repr

/-- Streaming phase of `sendMessageStream`, entered after the user message is
persisted: forward each fragment as a `chunk` event; on normal exhaustion
persist the concatenated text and emit `done`; if the stream throws, the inner
catch emits an `error` event whose payload is the fixed unavailability text,
and ends the channel. -/
def streamGenPhase (env : StreamEnv) : StreamOutcome :=
  let chunkEvents := env.chunks.map SSEEvent.chunk
  if env.aborts then
    { events := chunkEvents ++ [SSEEvent.errorEvent llmUnavailableMessage],
      userPersisted := true, assistantPersisted := false }
  else
    { events := chunkEvents ++
        [SSEEvent.done (env.assistantRecord (String.join env.chunks))],
      userPersisted := true, assistantPersisted := true }

/-- Source `ChatController.sendMessageStream`. -/
def sendMessageStreamFlow (env : StreamEnv) (content : String) (model : Option String) :
    StreamOutcome :=
  if jsTrim content = "" then
    { events := [SSEEvent.errorEvent "Message content is required"],
      userPersisted := false, assistantPersisted := false }
  else if !env.chatFound then
    { events := [SSEEvent.errorEvent "Chat not found"],
      userPersisted := false, assistantPersisted := false }
  else
    match model with
    | some m =>
      if getAvailableModels.contains m then streamGenPhase env
      else
        { events := [SSEEvent.errorEvent (invalidModelMessage m)],
          userPersisted := false, assistantPersisted := false }
    | none => streamGenPhase env

/-- Oracles for the anonymous streaming flow. -/
structure AnonStreamEnv where
  userMessage : Message
  chunks : List String
  aborts : Bool
  assistantRecord : String → Message
  now : Nat

/-- Observable outcome of an anonymous streaming send: events plus the final
in-memory chat entry. -/
structure AnonStreamOutcome where
  events : List SSEEvent
  finalChat : Option AnonymousChat
deriving DecidableEq, Repr

/-- Streaming phase of `sendAnonymousMessageStream`, entered with the user
message already appended: on a stream error the catch pops the user message
and emits the fixed `error` event. -/
def anonStreamGenPhase (env : AnonStreamEnv) (chat : AnonymousChat) : AnonStreamOutcome :=
  let chunkEvents := env.chunks.map SSEEvent.chunk
  if env.aborts then
    { events := chunkEvents ++ [SSEEvent.errorEvent llmUnavailableMessage],
      finalChat := some { chat with messages := chat.messages, updatedAt := env.now } }
  else
    let assistant := env.assistantRecord (String.join env.chunks)
    { events := chunkEvents ++ [SSEEvent.done assistant],
      finalChat := some { chat with
        messages := chat.messages ++ [env.userMessage, assistant],
        updatedAt := env.now } }

/-- Source `ChatController.sendAnonymousMessageStream`. -/
def sendAnonymousMessageStreamFlow (env : AnonStreamEnv) (chat? : Option AnonymousChat)
    (content : String) (model : Option String) : AnonStreamOutcome :=
  if jsTrim content = "" then
    { events := [SSEEvent.errorEvent "Message content is required"], finalChat := chat? }
  else
    match chat? with
    | none => { events := [SSEEvent.errorEvent "Anonymous chat not found"], finalChat := none }
    | some chat =>
      match model with
      | some m =>
        if getAvailableModels.contains m then anonStreamGenPhase env chat
        else
          { events := [SSEEvent.errorEvent (invalidModelMessage m)], finalChat := some chat }
      | none => anonStreamGenPhase env chat

/-! ## Anonymous chat migration (`ChatController.migrateAnonymousChats`) -/

/-- A durable chat record. -/
structure Chat where
  id : String
  title : String
  userId : String
  messages : List Message
deriving DecidableEq, Repr

/-- Oracle for migrating the i-th submitted chat: `.error` when any database
step of its try block throws; `.ok u` when all steps completed, `u` being the
`getChat` re-read (which the source only pushes when non-null). -/
structure MigrateEnv where
  proc : Nat → AnonymousChat → Except Unit (Option Chat)

/-- The `for (const anonymousChat of chats)` loop: a throwing chat is skipped,
a completed chat deletes its id from the registry and contributes its re-read
record (when non-null) to the migrated list. -/
def migrateLoop (env : MigrateEnv) (idx : Nat) (chats : List AnonymousChat)
    (migrated : List Chat) (registry : List AnonymousChat) :
    List Chat × List AnonymousChat :=
  match chats with
  | [] => (migrated, registry)
  | c :: rest =>
    match env.proc idx c with
    | Except.error _ => migrateLoop env (idx + 1) rest migrated registry
    | Except.ok (some u) =>
      migrateLoop env (idx + 1) rest (migrated ++ [u])
        (registry.filter fun r => !(r.id == c.id))
    | Except.ok none =>
      migrateLoop env (idx + 1) rest migrated
        (registry.filter fun r => !(r.id == c.id))

/-- Source `ChatController.migrateAnonymousChats`: reject an empty list, run the
migration loop, then answer 500 when nothing migrated and a success envelope
listing the migrated chats otherwise. -/
def migrateAnonymousChatsFlow (env : MigrateEnv) (chats : List AnonymousChat)
    (registry : List AnonymousChat) : ApiResp (List Chat) × List AnonymousChat :=
  if chats.isEmpty then
    (badRequest "Chats array is required and must not be empty", registry)
  else
    let p := migrateLoop env 0 chats [] registry
    if p.1.isEmpty then (internalError "Failed to migrate any chats", p.2)
    else (ApiResp.success 200 p.1, p.2)

/-! ## Theorems -/

/-- Helper: one unfolding of the retry loop on a successful call. -/
theorem sendMessageWithRetry_ok (env : GeminiEnv) (retryAttempts attempt : Nat) (r : String)
    (hc : env.call attempt = Except.ok r) :
    sendMessageWithRetry env retryAttempts attempt = (Except.ok r, 1) := by
  rw [sendMessageWithRetry, hc]

/-- Helper: one unfolding of the retry loop on a retryable error below budget. -/
theorem sendMessageWithRetry_retry (env : GeminiEnv) (retryAttempts attempt : Nat) (e : String)
    (hc : env.call attempt = Except.error e) (hr : isRetryableError e = true)
    (hlt : attempt < retryAttempts) :
    sendMessageWithRetry env retryAttempts attempt =
      ((sendMessageWithRetry env retryAttempts (attempt + 1)).1,
       (sendMessageWithRetry env retryAttempts (attempt + 1)).2 + 1) := by
  rw [sendMessageWithRetry, hc]
  simp [hr, hlt]

/-- Helper: one unfolding of the retry loop on a terminal error. -/
theorem sendMessageWithRetry_stop (env : GeminiEnv) (retryAttempts attempt : Nat) (e : String)
    (hc : env.call attempt = Except.error e)
    (hstop : ¬(isRetryableError e = true ∧ attempt < retryAttempts)) :
    sendMessageWithRetry env retryAttempts attempt =
      (Except.error ("Failed to get response from Gemini: " ++ e), 1) := by
  rw [sendMessageWithRetry, hc]
  simp only [dif_neg hstop]

/-- C3: with two retryable failures followed by a success, `sendMessage`
returns the successful result having invoked the underlying call exactly three
times; with a non-retryable first failure it invokes the underlying call
exactly once and surfaces the (wrapped) error at once. -/
theorem complete_retry_counts
    (env : GeminiEnv) (e0 e1 r : String)
    (h0 : isRetryableError e0 = true) (h1 : isRetryableError e1 = true)
    (hc0 : env.call 0 = Except.error e0) (hc1 : env.call 1 = Except.error e1)
    (hc2 : env.call 2 = Except.ok r)
    (retryAttempts : Nat) (hra : 2 ≤ retryAttempts)
    (envF : GeminiEnv) (ef : String) (hf : isRetryableError ef = false)
    (hcf : envF.call 0 = Except.error ef) (retryAttemptsF : Nat) :
    sendMessage env retryAttempts = (Except.ok r, 3) ∧
    sendMessage envF retryAttemptsF =
      (Except.error ("Failed to get response from Gemini: " ++ ef), 1) := by
  constructor
  · have s2 := sendMessageWithRetry_ok env retryAttempts 2 r hc2
    have s1 := sendMessageWithRetry_retry env retryAttempts 1 e1 hc1 h1 (by omega)
    have s0 := sendMessageWithRetry_retry env retryAttempts 0 e0 hc0 h0 (by omega)
    unfold sendMessage
    rw [s0, s1, s2]
  · unfold sendMessage
    exact sendMessageWithRetry_stop envF retryAttemptsF 0 ef hcf (by simp [hf])

/-- Concrete oracle for the C3 witness: two transient failures, then success. -/
def geminiEnvTransient : GeminiEnv :=
  { call := fun n =>
      if n = 0 then Except.error "503 Service Unavailable"
      else if n = 1 then Except.error "Rate limit exceeded"
      else Except.ok "hello" }

/-- Concrete oracle for the C3 witness: a fatal failure. -/
def geminiEnvFatal : GeminiEnv :=
  { call := fun _ => Except.error "invalid api key" }

/-- Witness for C3 at concrete oracles. -/
theorem complete_retry_counts_witness :
    sendMessage geminiEnvTransient defaultRetryAttempts = (Except.ok "hello", 3) ∧
    sendMessage geminiEnvFatal defaultRetryAttempts =
      (Except.error ("Failed to get response from Gemini: " ++ "invalid api key"), 1) :=
  complete_retry_counts geminiEnvTransient
    "503 Service Unavailable" "Rate limit exceeded" "hello"
    (by decide) (by decide) rfl rfl rfl
    defaultRetryAttempts (by decide)
    geminiEnvFatal "invalid api key" (by decide) rfl defaultRetryAttempts

/-- C4: on `TOOL_CALL:search:` followed by a JSON object whose `q` field is the
string `\x7b"nested":1\x7d`, extraction returns exactly one call, named
`search`, with that string preserved through the nested (escaped) braces. -/
theorem extract_tool_call_nested_braces :
    extractToolCalls "TOOL_CALL:search:\x7b\"q\":\"\x7b\\\"nested\\\":1\x7d\"\x7d" =
      [{ toolName := "search",
         arguments := Json.obj [("q", Json.str "\x7b\"nested\":1\x7d")] }] := by
  rfl

/-- Helper: a character read by `charAt` is a member of the list. -/
theorem charAt_mem {s : List Char} {i : Nat} {c : Char} (h : charAt s i = some c) :
    c ∈ s := by
  unfold charAt at h
  cases hd : s.drop i with
  | nil => rw [hd] at h; simp at h
  | cons a t =>
    rw [hd] at h
    simp only [List.head?_cons, Option.some.injEq] at h
    have hsub : c ∈ s.drop i := by
      rw [hd, h]
      exact List.mem_cons_self _ _
    exact List.mem_of_mem_drop hsub

/-- Helper: a response containing no opening brace yields no tool call, at any
fuel and scan position. -/
theorem extractLoopAux_no_lbrace (s : List Char) (hs : lbrace ∉ s) :
    ∀ fuel lastIdx, extractLoopAux s fuel lastIdx = [] := by
  intro fuel
  induction fuel with
  | zero => intro lastIdx; rfl
  | succ n ih =>
    intro lastIdx
    unfold extractLoopAux
    cases hfm : findMarkerAux (s.drop lastIdx) lastIdx with
    | none => simp [hfm]
    | some trip =>
      obtain ⟨mIdx, name, mEnd⟩ := trip
      cases hca : charAt s (skipWsFrom s mEnd) with
      | none => simp [hfm, hca, ih]
      | some c =>
        have hcmem := charAt_mem hca
        have hne : ¬(c = lbrace) := fun h => hs (h ▸ hcmem)
        simp [hfm, hca, hne, ih]

/-- C5: a directive with unbalanced braces yields no call; a directive with
balanced braces but invalid JSON yields no call; in both cases a later
well-formed directive in the same input is still extracted; and an input with
no opening brace at all yields no calls from any directive.  Extraction is a
total function, so no input makes it throw. -/
theorem extract_malformed_directives_safe :
    extractToolCalls "TOOL_CALL:foo:\x7bunbalanced" = [] ∧
    extractToolCalls "TOOL_CALL:foo:\x7bunbalanced TOOL_CALL:search:\x7b\"q\":\"ok\"\x7d" =
      [{ toolName := "search", arguments := Json.obj [("q", Json.str "ok")] }] ∧
    extractToolCalls "TOOL_CALL:bar:\x7bbad json\x7d TOOL_CALL:search:\x7b\"q\":\"ok\"\x7d" =
      [{ toolName := "search", arguments := Json.obj [("q", Json.str "ok")] }] ∧
    (∀ s : String, lbrace ∉ s.data → extractToolCalls s = []) := by
  refine ⟨rfl, rfl, rfl, ?_⟩
  intro s hs
  exact extractLoopAux_no_lbrace s.data hs (s.length + 1) 0

/-- Witness for C5 at a concrete brace-free input. -/
theorem extract_malformed_directives_safe_witness :
    extractToolCalls "TOOL_CALL:foo:no json here" = [] :=
  extract_malformed_directives_safe.2.2.2 "TOOL_CALL:foo:no json here" (by decide)

/-- A registry entry created at time `T = 0`, used for the C7 statements. -/
def anonChatAtZero : AnonymousChat :=
  { id := "anon1", title := "t", messages := [], createdAt := 0, updatedAt := 0 }

/-- C7 counterexample: the sweep deletes only entries strictly older than the
timeout (`chatAge > ANONYMOUS_CHAT_TIMEOUT`), so a sweep cycle running exactly
at `T + 60` minutes — which is "at or after `T + 60` minutes" — still retains
the entry created at `T`. -/
theorem cleanup_sweep_boundary_counterexample :
    cleanupSweep (0 + ANONYMOUS_CHAT_TIMEOUT) [anonChatAtZero] = [anonChatAtZero] := by
  rfl

/-- C7 amended: an entry created at `T` is present in every sweep running at or
before `T + 59` minutes, and absent from every sweep running strictly after
`T + 60` minutes. -/
theorem cleanup_sweep_amended (chat : AnonymousChat) (registry : List AnonymousChat)
    (now : Nat) (hmem : chat ∈ registry) :
    (now ≤ chat.createdAt + 59 * 60 * 1000 → chat ∈ cleanupSweep now registry) ∧
    (chat.createdAt + 60 * 60 * 1000 < now → chat ∉ cleanupSweep now registry) := by
  constructor
  · intro hle
    unfold cleanupSweep
    refine List.mem_filter.mpr ⟨hmem, ?_⟩
    have hno : ¬(ANONYMOUS_CHAT_TIMEOUT < now - chat.createdAt) := by
      unfold ANONYMOUS_CHAT_TIMEOUT
      omega
    simp [hno]
  · intro hgt hmem2
    have hp := (List.mem_filter.mp hmem2).2
    have hyes : ANONYMOUS_CHAT_TIMEOUT < now - chat.createdAt := by
      unfold ANONYMOUS_CHAT_TIMEOUT
      omega
    simp [hyes] at hp

/-- Witness for C7's amended statement at concrete times. -/
theorem cleanup_sweep_amended_witness :
    anonChatAtZero ∈ cleanupSweep (59 * 60 * 1000) [anonChatAtZero] ∧
    anonChatAtZero ∉ cleanupSweep (60 * 60 * 1000 + 1) [anonChatAtZero] :=
  ⟨(cleanup_sweep_amended anonChatAtZero [anonChatAtZero] (59 * 60 * 1000)
      (List.mem_singleton.mpr rfl)).1 (by decide),
   (cleanup_sweep_amended anonChatAtZero [anonChatAtZero] (60 * 60 * 1000 + 1)
      (List.mem_singleton.mpr rfl)).2 (by decide)⟩

/-- C8: with the service already holding an active model, switching to a name
outside the allow-list fails with the invalid-model error and leaves the
active model configuration unchanged, while switching to an allow-listed name
installs that model with the fixed generation configuration. -/
theorem switch_model_allowlist (st : GeminiState) (m : ModelConfig)
    (hst : st.model = some m) (modelName : String) :
    (getAvailableModels.contains modelName = false →
      switchModel st modelName = (st, some (invalidModelMessage modelName))) ∧
    (getAvailableModels.contains modelName = true →
      switchModel st modelName =
        ({ model := some { name := modelName, config := defaultGenerationConfig } }, none)) := by
  have hinit : initializeState st = st := by
    unfold initializeState
    rw [hst]
  constructor
  · intro hno
    have hno2 : modelName ∉ getAvailableModels := by simpa using hno
    unfold switchModel
    simp [hno2, hinit]
  · intro hyes
    have hyes2 : modelName ∈ getAvailableModels := by simpa using hyes
    unfold switchModel
    simp [hyes2]

/-- The service state holding the `gemini-2.5-pro` model, for the C8 witness. -/
def geminiStatePro : GeminiState :=
  { model := some { name := "gemini-2.5-pro", config := defaultGenerationConfig } }

/-- Witness for C8 at a concrete state, an unknown name and a known name. -/
theorem switch_model_allowlist_witness :
    switchModel geminiStatePro "not-a-model" =
      (geminiStatePro, some (invalidModelMessage "not-a-model")) ∧
    switchModel geminiStatePro "gemini-2.5-flash" =
      ({ model := some { name := "gemini-2.5-flash", config := defaultGenerationConfig } },
       none) :=
  ⟨(switch_model_allowlist geminiStatePro
      { name := "gemini-2.5-pro", config := defaultGenerationConfig } rfl "not-a-model").1
      (by decide),
   (switch_model_allowlist geminiStatePro
      { name := "gemini-2.5-pro", config := defaultGenerationConfig } rfl "gemini-2.5-flash").2
      (by decide)⟩

/-- Helper for C9: when every attempt up to the budget fails with a retryable
error, the loop surfaces the last error, wrapped, after budget + 1
invocations. -/
theorem sendMessageWithRetry_exhaust (env : GeminiEnv) (msgs : Nat → String)
    (retryAttempts : Nat)
    (hcall : ∀ i, i ≤ retryAttempts → env.call i = Except.error (msgs i))
    (hretry : ∀ i, i ≤ retryAttempts → isRetryableError (msgs i) = true) :
    ∀ k attempt, retryAttempts - attempt ≤ k → attempt ≤ retryAttempts →
      sendMessageWithRetry env retryAttempts attempt =
        (Except.error ("Failed to get response from Gemini: " ++ msgs retryAttempts),
         retryAttempts - attempt + 1) := by
  intro k
  induction k with
  | zero =>
    intro attempt hk hle
    have ha : attempt = retryAttempts := by omega
    subst ha
    rw [sendMessageWithRetry_stop env attempt attempt (msgs attempt)
      (hcall attempt le_rfl) (by intro hand; omega)]
    simp
  | succ n ih =>
    intro attempt hk hle
    by_cases ha : attempt = retryAttempts
    · subst ha
      rw [sendMessageWithRetry_stop env attempt attempt (msgs attempt)
        (hcall attempt le_rfl) (by intro hand; omega)]
      simp
    · have hlt : attempt < retryAttempts := by omega
      rw [sendMessageWithRetry_retry env retryAttempts attempt (msgs attempt)
            (hcall attempt (by omega)) (hretry attempt (by omega)) hlt,
          ih (attempt + 1) (by omega) (by omega)]
      simp only [Prod.mk.injEq, true_and]
      omega

/-- C9: the computed retry delay is `base * 2 ^ attempt` plus the (sub-second)
jitter, capped at 30 seconds; and once the configured attempt budget is
exhausted by retryable failures, the loop stops and surfaces the last error. -/
theorem retry_delay_formula (base : ℚ) (n : Nat) (jitter : ℚ)
    (h0 : 0 ≤ jitter) (h1 : jitter < 1000) :
    calculateRetryDelay base n jitter ≤ 30000 ∧
    (base * 2 ^ n + jitter ≤ 30000 →
      calculateRetryDelay base n jitter = base * 2 ^ n + jitter) ∧
    (30000 ≤ base * 2 ^ n + jitter → calculateRetryDelay base n jitter = 30000) ∧
    (∀ (env : GeminiEnv) (msgs : Nat → String) (retryAttempts : Nat),
      (∀ i, i ≤ retryAttempts → env.call i = Except.error (msgs i)) →
      (∀ i, i ≤ retryAttempts → isRetryableError (msgs i) = true) →
      sendMessage env retryAttempts =
        (Except.error ("Failed to get response from Gemini: " ++ msgs retryAttempts),
         retryAttempts + 1)) := by
  refine ⟨min_le_right _ _, fun h => min_eq_left h, fun h => min_eq_right h, ?_⟩
  intro env msgs retryAttempts hcall hretry
  have hx := sendMessageWithRetry_exhaust env msgs retryAttempts hcall hretry
    retryAttempts 0 (by omega) (by omega)
  unfold sendMessage
  rw [hx]
  simp

/-- Oracle that always fails with a 503, for the C9 witness. -/
def geminiEnvAlways503 : GeminiEnv :=
  { call := fun _ => Except.error "503 Service Unavailable" }

/-- Witness for C9 at concrete numbers and a concrete exhausted oracle. -/
theorem retry_delay_formula_witness :
    calculateRetryDelay 1000 0 500 ≤ 30000 ∧
    sendMessage geminiEnvAlways503 3 =
      (Except.error ("Failed to get response from Gemini: " ++ "503 Service Unavailable"),
       4) := by
  have hthm := retry_delay_formula 1000 0 500 (by norm_num) (by norm_num)
  have hr : ∀ (i : Nat), i ≤ 3 → isRetryableError "503 Service Unavailable" = true :=
    fun _ _ => by decide
  have hc : ∀ (i : Nat), i ≤ 3 →
      geminiEnvAlways503.call i = Except.error "503 Service Unavailable" :=
    fun _ _ => rfl
  exact ⟨hthm.1,
    hthm.2.2.2 geminiEnvAlways503 (fun _ => "503 Service Unavailable") 3 hc hr⟩

/-- Concrete oracle for C1: the chat (id "chat42") exists and the model stream
aborts before yielding any fragment. -/
def streamEnvAbort : StreamEnv :=
  { chatFound := true, chunks := [], aborts := true,
    assistantRecord := fun c =>
      { id := "m1", chatId := "chat42", role := MessageRole.assistant, content := c,
        createdAt := 0 } }

/-- C1 counterexample: in a streaming send against existing chat "chat42"
whose generation fails after the user message was persisted, the single SSE
error event's payload is the fixed unavailability text, which carries no
mention of the chat id — so the error payload does not report the chat id.
(The second half of the claim, that no `done` event is emitted, does hold.) -/
theorem stream_error_payload_counterexample :
    (sendMessageStreamFlow streamEnvAbort "hi" none).userPersisted = true ∧
    (sendMessageStreamFlow streamEnvAbort "hi" none).events =
      [SSEEvent.errorEvent llmUnavailableMessage] ∧
    strIncludes llmUnavailableMessage "chat42" = false :=
  ⟨rfl, rfl, rfl⟩

/-- C1 amended: a streaming send (authenticated or anonymous) that fails after
persisting the user message emits the already-forwarded chunk events followed
by one error event whose payload is the fixed unavailability text (it does not
include the chat id), and never emits a `done` event. -/
theorem stream_failure_amended (env : StreamEnv) (aenv : AnonStreamEnv)
    (chat : AnonymousChat) (content : String)
    (hc : ¬jsTrim content = "") (hfound : env.chatFound = true)
    (hab : env.aborts = true) (hab2 : aenv.aborts = true) :
    (sendMessageStreamFlow env content none).events =
      env.chunks.map SSEEvent.chunk ++ [SSEEvent.errorEvent llmUnavailableMessage] ∧
    (sendMessageStreamFlow env content none).userPersisted = true ∧
    (∀ m : Message, SSEEvent.done m ∉ (sendMessageStreamFlow env content none).events) ∧
    (sendAnonymousMessageStreamFlow aenv (some chat) content none).events =
      aenv.chunks.map SSEEvent.chunk ++ [SSEEvent.errorEvent llmUnavailableMessage] ∧
    (∀ m : Message, SSEEvent.done m ∉
      (sendAnonymousMessageStreamFlow aenv (some chat) content none).events) := by
  have h1 : sendMessageStreamFlow env content none = streamGenPhase env := by
    unfold sendMessageStreamFlow
    simp [hc, hfound]
  have h2 : sendAnonymousMessageStreamFlow aenv (some chat) content none =
      anonStreamGenPhase aenv chat := by
    unfold sendAnonymousMessageStreamFlow
    simp [hc]
  have h3 : streamGenPhase env =
      { events := env.chunks.map SSEEvent.chunk ++
          [SSEEvent.errorEvent llmUnavailableMessage],
        userPersisted := true, assistantPersisted := false } := by
    unfold streamGenPhase
    simp [hab]
  have h4 : (anonStreamGenPhase aenv chat).events =
      aenv.chunks.map SSEEvent.chunk ++ [SSEEvent.errorEvent llmUnavailableMessage] := by
    unfold anonStreamGenPhase
    simp [hab2]
  refine ⟨by rw [h1, h3], by rw [h1, h3], ?_, by rw [h2, h4], ?_⟩
  · intro m hm
    rw [h1, h3] at hm
    simp at hm
  · intro m hm
    rw [h2, h4] at hm
    simp at hm

/-- Concrete oracle for the anonymous half of the C1 witness: one fragment is
forwarded before the stream aborts. -/
def anonStreamEnvAbort : AnonStreamEnv :=
  { userMessage :=
      { id := "u1", chatId := "anon1", role := MessageRole.user, content := "hi",
        createdAt := 1 },
    chunks := ["partial"], aborts := true,
    assistantRecord := fun c =>
      { id := "a1", chatId := "anon1", role := MessageRole.assistant, content := c,
        createdAt := 2 },
    now := 3 }

/-- Witness for C1's amended statement at concrete oracles. -/
theorem stream_failure_amended_witness :
    (sendMessageStreamFlow streamEnvAbort "hi" none).events =
      [SSEEvent.errorEvent llmUnavailableMessage] ∧
    (sendAnonymousMessageStreamFlow anonStreamEnvAbort (some anonChatAtZero) "hi" none).events =
      [SSEEvent.chunk "partial", SSEEvent.errorEvent llmUnavailableMessage] := by
  have h := stream_failure_amended streamEnvAbort anonStreamEnvAbort anonChatAtZero "hi"
    (by decide) rfl rfl rfl
  exact ⟨h.1, h.2.2.2.1⟩

/-- Concrete oracle for C2, authenticated flow: the chat exists and the AI
response fails. -/
def restEnvFail : RestEnv :=
  { chatFound := true, aiResponse := Except.error "LLM down",
    assistantRecord := fun c =>
      { id := "a1", chatId := "chat42", role := MessageRole.assistant, content := c,
        createdAt := 2 } }

/-- Concrete oracle for C2, anonymous flow: the AI response fails. -/
def anonRestEnvFail : AnonRestEnv :=
  { userMessage :=
      { id := "u1", chatId := "anon1", role := MessageRole.user, content := "hi",
        createdAt := 1 },
    aiResponse := Except.error "LLM down",
    assistantRecord := fun c =>
      { id := "a1", chatId := "anon1", role := MessageRole.assistant, content := c,
        createdAt := 2 },
    now := 7 }

/-- C2 counterexample: in the anonymous REST flow the persisted user message is
popped on an LLM failure — the final chat holds no messages, so the user
message is rolled back, not retained; and in both flows the error envelope's
`chatId` field is empty, so the response does not reference the existing chat
id. -/
theorem rest_failure_counterexample :
    (sendAnonymousMessageFlow anonRestEnvFail (some anonChatAtZero) "hi" none).finalChat =
      some { anonChatAtZero with updatedAt := 7 } ∧
    (sendAnonymousMessageFlow anonRestEnvFail (some anonChatAtZero) "hi" none).response =
      ApiResp.failure 503 llmUnavailableMessage (some "LLM_UNAVAILABLE") (some 60) none ∧
    (sendMessageFlow restEnvFail "hi" none).response =
      ApiResp.failure 503 llmUnavailableMessage (some "LLM_UNAVAILABLE") (some 60) none ∧
    (sendMessageFlow restEnvFail "hi" none).userPersisted = true :=
  ⟨rfl, rfl, rfl, rfl⟩

/-- C2 amended: on a REST send whose AI response fails after the user message
was persisted, the authenticated flow retains the user message but answers a
503 envelope with an empty `chatId`, and the anonymous flow pops the user
message (restoring the previous message list) and answers the same envelope
with an empty `chatId`. -/
theorem rest_failure_amended (env : RestEnv) (aenv : AnonRestEnv)
    (chat : AnonymousChat) (content e1 e2 : String)
    (hc : ¬jsTrim content = "") (hfound : env.chatFound = true)
    (he : env.aiResponse = Except.error e1) (hae : aenv.aiResponse = Except.error e2) :
    sendMessageFlow env content none =
      { response := ApiResp.failure 503 llmUnavailableMessage (some "LLM_UNAVAILABLE")
          (some 60) none,
        userPersisted := true, assistantPersisted := false } ∧
    sendAnonymousMessageFlow aenv (some chat) content none =
      { response := ApiResp.failure 503 llmUnavailableMessage (some "LLM_UNAVAILABLE")
          (some 60) none,
        finalChat := some { chat with updatedAt := aenv.now } } := by
  constructor
  · simp [sendMessageFlow, sendMessageGenPhase, hc, hfound, he, handleLLMError,
      serviceUnavailable]
  · simp [sendAnonymousMessageFlow, sendAnonymousGenPhase, hc, hae, handleLLMError,
      serviceUnavailable]

/-- Witness for C2's amended statement at concrete oracles. -/
theorem rest_failure_amended_witness :
    sendMessageFlow restEnvFail "hi" none =
      { response := ApiResp.failure 503 llmUnavailableMessage (some "LLM_UNAVAILABLE")
          (some 60) none,
        userPersisted := true, assistantPersisted := false } ∧
    sendAnonymousMessageFlow anonRestEnvFail (some anonChatAtZero) "hi" none =
      { response := ApiResp.failure 503 llmUnavailableMessage (some "LLM_UNAVAILABLE")
          (some 60) none,
        finalChat := some { anonChatAtZero with updatedAt := 7 } } :=
  rest_failure_amended restEnvFail anonRestEnvFail anonChatAtZero "hi" "LLM down" "LLM down"
    (by decide) rfl rfl rfl

/-- Helper: the catch of the correction cycle preserves the attempt count. -/
theorem catchCorrection_snd (r : Except String String × Nat) :
    (catchCorrection r).2 = r.2 := by
  unfold catchCorrection
  cases hr : r.1 <;> simp

/-- Helper: the catch of the correction cycle turns any thrown error into the
fixed correction-attempt error. -/
theorem catchCorrection_error (r : Except String String × Nat) (m : String)
    (h : r.1 = Except.error m) :
    (catchCorrection r).1 = Except.error "Error occurred during LLM error correction attempt" := by
  unfold catchCorrection
  rw [h]

/-- Helper for C6: the number of tool-batch attempts performed by the
execution function is bounded by the remaining retry budget plus one. -/
theorem executeToolCalls_count_le :
    ∀ (k : Nat) (env : ToolLoopEnv) (toolCalls : List ToolCall) (retryCount : Nat),
      MAX_RETRIES - retryCount ≤ k →
      (executeToolCallsAndRespond env toolCalls retryCount).2 ≤ k + 1 := by
  intro k
  induction k with
  | zero =>
    intro env toolCalls retryCount hk
    rw [executeToolCallsAndRespond]
    cases hA : attemptOutcome env retryCount toolCalls with
    | ok c => simp
    | error e =>
      have hn : ¬retryCount < MAX_RETRIES := by
        unfold MAX_RETRIES at hk ⊢
        omega
      simp [hn]
  | succ n ih =>
    intro env toolCalls retryCount hk
    rw [executeToolCallsAndRespond]
    cases hA : attemptOutcome env retryCount toolCalls with
    | ok c => simp
    | error e =>
      by_cases hrc : retryCount < MAX_RETRIES
      · simp only [hrc, dif_pos]
        have hretry :
            (retryWithLLMCorrection env toolCalls e retryCount hrc).2 ≤ n + 1 := by
          rw [retryWithLLMCorrection, catchCorrection_snd]
          cases hm : env.mcpContext retryCount with
          | error m => simp
          | ok ctx =>
            cases hco : env.correction retryCount toolCalls e with
            | error m => simp
            | ok corr =>
              by_cases hg : strIncludes corr "ERROR_UNABLE_TO_FIX" = true
              · simp [hg]
              · cases hext : extractToolCalls corr with
                | nil => simp [hg, hext]
                | cons tc rest =>
                  have hrec := ih env (tc :: rest) (retryCount + 1)
                    (by unfold MAX_RETRIES at hk hrc ⊢; omega)
                  simp [hg, hext, hrec]
        simp
        omega
      · simp [hrc]

/-- C6: the tool-failure correction cycle performs at most `MAX_RETRIES`
correction retries after the initial attempt (at most three tool-batch
attempts in total, so the mutual recursion terminates); the give-up marker, an
unparseable correction, and an exhausted budget each end the operation with a
tool-execution error; and the orchestrator never surfaces that error — on any
failure of its tool path it answers with the plain (non-tool) LLM completion
instead. -/
theorem tool_loop_bounded_and_recovered :
    (∀ (env : ToolLoopEnv) (toolCalls : List ToolCall),
      (executeToolCallsAndRespond env toolCalls 0).2 ≤ MAX_RETRIES + 1) ∧
    (∀ (env : ToolLoopEnv) (toolCalls : List ToolCall) (e : String) (retryCount : Nat)
        (hlt : retryCount < MAX_RETRIES) (ctx corr : String),
      env.mcpContext retryCount = Except.ok ctx →
      env.correction retryCount toolCalls e = Except.ok corr →
      strIncludes corr "ERROR_UNABLE_TO_FIX" = true →
      (retryWithLLMCorrection env toolCalls e retryCount hlt).1 =
        Except.error "Error occurred during LLM error correction attempt") ∧
    (∀ (env : ToolLoopEnv) (toolCalls : List ToolCall) (e : String) (retryCount : Nat)
        (hlt : retryCount < MAX_RETRIES) (ctx corr : String),
      env.mcpContext retryCount = Except.ok ctx →
      env.correction retryCount toolCalls e = Except.ok corr →
      strIncludes corr "ERROR_UNABLE_TO_FIX" = false →
      extractToolCalls corr = [] →
      (retryWithLLMCorrection env toolCalls e retryCount hlt).1 =
        Except.error "Error occurred during LLM error correction attempt") ∧
    (∀ (env : ToolLoopEnv) (toolCalls : List ToolCall) (e : String),
      attemptOutcome env MAX_RETRIES toolCalls = Except.error e →
      (executeToolCallsAndRespond env toolCalls MAX_RETRIES).1 =
        Except.error "MCP tool execution failed after maximum retry attempts") ∧
    (∀ (env : MCPIntegrationEnv) (m : String),
      mcpTryPath env = Except.error m →
      processWithMCPIntegration env = env.fallback) := by
  refine ⟨?_, ?_, ?_, ?_, ?_⟩
  · intro env toolCalls
    exact executeToolCalls_count_le MAX_RETRIES env toolCalls 0 (by omega)
  · intro env toolCalls e retryCount hlt ctx corr hm hco hg
    rw [retryWithLLMCorrection]
    apply catchCorrection_error _ "LLM was unable to correct the MCP tool call arguments"
    rw [hm, hco]
    simp [hg]
  · intro env toolCalls e retryCount hlt ctx corr hm hco hg hext
    rw [retryWithLLMCorrection]
    apply catchCorrection_error _ "LLM did not provide a corrected tool call"
    rw [hm, hco]
    simp [hg, hext]
  · intro env toolCalls e hA
    rw [executeToolCallsAndRespond, hA]
    simp
  · intro env m htry
    unfold processWithMCPIntegration
    rw [htry]

/-- Concrete tool-loop oracle for the C6 witness: every tool call throws and
the correction LLM always gives up. -/
def toolLoopEnvFail : ToolLoopEnv :=
  { callTool := fun _ _ => Except.error "tool exploded",
    interpret := fun _ _ => Except.ok "never reached",
    mcpContext := fun _ => Except.ok "ctx",
    correction := fun _ _ _ => Except.ok "ERROR_UNABLE_TO_FIX: malformed arguments" }

/-- Concrete orchestrator oracle for the C6 witness: the initial LLM call of
the tool path throws, the plain completion answers. -/
def mcpEnvLLMDown : MCPIntegrationEnv :=
  { callTool := fun _ _ => Except.error "tool exploded",
    interpret := fun _ _ => Except.ok "never reached",
    mcpContext := fun _ => Except.ok "ctx",
    correction := fun _ _ _ => Except.ok "ERROR_UNABLE_TO_FIX: malformed arguments",
    initialContext := Except.ok "ctx",
    initialLLM := Except.error "llm down",
    fallback := Except.ok "plain answer" }

/-- A tool call used by the C6 witness. -/
def sampleToolCall : ToolCall := { toolName := "t", arguments := Json.obj [] }

/-- Witness for C6 at concrete oracles. -/
theorem tool_loop_bounded_and_recovered_witness :
    (executeToolCallsAndRespond toolLoopEnvFail [sampleToolCall] 0).2 ≤ MAX_RETRIES + 1 ∧
    (retryWithLLMCorrection toolLoopEnvFail [sampleToolCall] "boom" 0 (by decide)).1 =
      Except.error "Error occurred during LLM error correction attempt" ∧
    (executeToolCallsAndRespond toolLoopEnvFail [sampleToolCall] MAX_RETRIES).1 =
      Except.error "MCP tool execution failed after maximum retry attempts" ∧
    processWithMCPIntegration mcpEnvLLMDown = Except.ok "plain answer" := by
  have h := tool_loop_bounded_and_recovered
  refine ⟨h.1 toolLoopEnvFail [sampleToolCall],
    h.2.1 toolLoopEnvFail [sampleToolCall] "boom" 0 (by decide) "ctx"
      "ERROR_UNABLE_TO_FIX: malformed arguments" rfl rfl (by decide),
    h.2.2.2.1 toolLoopEnvFail [sampleToolCall] "tool exploded" rfl,
    (h.2.2.2.2 mcpEnvLLMDown "llm down" rfl).trans rfl⟩

/-- Per-chat contribution to the migrated list: a chat whose processing throws
contributes nothing, a completed chat contributes its non-null re-read
record.  Stated separately so the loop's independence of failures is a proper
theorem about `migrateLoop`. -/
def migratedSpec (env : MigrateEnv) : Nat → List AnonymousChat → List Chat
  | _, [] => []
  | idx, c :: rest =>
    (match env.proc idx c with
     | Except.ok (some u) => [u]
     | Except.ok none => []
     | Except.error _ => []) ++ migratedSpec env (idx + 1) rest

/-- Whether a thrown exception occurred (`false`) or not (`true`). -/
def exceptIsOk {ε α : Type} : Except ε α → Bool
  | Except.ok _ => true
  | Except.error _ => false

/-- Whether some chat of the submitted list completes its migration and has
the given id (such chats are deleted from the registry). -/
def migrationRemovesId (env : MigrateEnv) : Nat → List AnonymousChat → String → Bool
  | _, [], _ => false
  | idx, c :: rest, i =>
    (exceptIsOk (env.proc idx c) && i == c.id) || migrationRemovesId env (idx + 1) rest i

/-- Helper for C10: the migrated list accumulated by the loop is the initial
accumulator followed by the per-chat contributions — a throwing chat is
skipped and the remaining chats are unaffected. -/
theorem migrateLoop_fst (env : MigrateEnv) :
    ∀ (chats : List AnonymousChat) (idx : Nat) (migrated : List Chat)
      (registry : List AnonymousChat),
      (migrateLoop env idx chats migrated registry).1 =
        migrated ++ migratedSpec env idx chats := by
  intro chats
  induction chats with
  | nil =>
    intro idx migrated registry
    simp [migrateLoop, migratedSpec]
  | cons c rest ih =>
    intro idx migrated registry
    cases hp : env.proc idx c with
    | error u => simp [migrateLoop, migratedSpec, hp, ih]
    | ok updated =>
      cases updated with
      | none => simp [migrateLoop, migratedSpec, hp, ih]
      | some u => simp [migrateLoop, migratedSpec, hp, ih]

/-- Helper for C10: pointwise form of the registry predicate when the head
chat's processing throws. -/
theorem migrationRemovesId_error (env : MigrateEnv) (idx : Nat) (c : AnonymousChat)
    (rest : List AnonymousChat) (i : String) (u : Unit)
    (hp : env.proc idx c = Except.error u) :
    migrationRemovesId env idx (c :: rest) i = migrationRemovesId env (idx + 1) rest i := by
  rw [migrationRemovesId, hp]
  simp [exceptIsOk]

/-- Helper for C10: pointwise form of the registry predicate when the head
chat's processing completes. -/
theorem migrationRemovesId_ok (env : MigrateEnv) (idx : Nat) (c : AnonymousChat)
    (rest : List AnonymousChat) (i : String) (updated : Option Chat)
    (hp : env.proc idx c = Except.ok updated) :
    migrationRemovesId env idx (c :: rest) i =
      ((i == c.id) || migrationRemovesId env (idx + 1) rest i) := by
  rw [migrationRemovesId, hp]
  simp [exceptIsOk]

/-- Helper for C10: the registry left by the loop is the input registry with
exactly the completed chats' ids filtered out. -/
theorem migrateLoop_snd (env : MigrateEnv) :
    ∀ (chats : List AnonymousChat) (idx : Nat) (migrated : List Chat)
      (registry : List AnonymousChat),
      (migrateLoop env idx chats migrated registry).2 =
        registry.filter (fun r => !(migrationRemovesId env idx chats r.id)) := by
  intro chats
  induction chats with
  | nil =>
    intro idx migrated registry
    simp [migrateLoop, migrationRemovesId]
  | cons c rest ih =>
    intro idx migrated registry
    cases hp : env.proc idx c with
    | error u =>
      have hstep : (migrateLoop env idx (c :: rest) migrated registry).2 =
          (migrateLoop env (idx + 1) rest migrated registry).2 := by
        rw [migrateLoop, hp]
      rw [hstep, ih]
      apply List.filter_congr
      intro r _
      rw [migrationRemovesId_error env idx c rest r.id u hp]
    | ok updated =>
      have hstep : (migrateLoop env idx (c :: rest) migrated registry).2 =
          ((registry.filter fun r => !(r.id == c.id)).filter
            (fun r => !(migrationRemovesId env (idx + 1) rest r.id))) := by
        cases updated with
        | none => rw [migrateLoop, hp, ih]
        | some u => rw [migrateLoop, hp, ih]
      rw [hstep, List.filter_filter]
      apply List.filter_congr
      intro r _
      rw [migrationRemovesId_ok env idx c rest r.id updated hp]
      simp [Bool.not_or, Bool.and_comm]

/-- Helper for C10: a chat of the submitted list whose processing completes
marks its id for removal. -/
theorem migrationRemovesId_of_get (env : MigrateEnv) :
    ∀ (chats : List AnonymousChat) (idx i : Nat) (c : AnonymousChat),
      chats[i]? = some c → exceptIsOk (env.proc (idx + i) c) = true →
      migrationRemovesId env idx chats c.id = true := by
  intro chats
  induction chats with
  | nil =>
    intro idx i c hg
    simp at hg
  | cons d rest ih =>
    intro idx i c hg hok
    cases i with
    | zero =>
      simp only [List.getElem?_cons_zero, Option.some.injEq] at hg
      subst hg
      unfold migrationRemovesId
      rw [Nat.add_zero] at hok
      simp [hok]
    | succ j =>
      simp only [List.getElem?_cons_succ] at hg
      unfold migrationRemovesId
      have hrec := ih (idx + 1) j c hg
        (by rw [show idx + 1 + j = idx + (j + 1) by omega]; exact hok)
      simp [hrec]

/-- C10: on a non-empty submitted list, a chat whose migration throws is
skipped without affecting the others' contributions; the response is the
internal-error envelope exactly when no chat migrated and otherwise a success
envelope listing the migrated chats; and every chat that completed its
migration has its id removed from the in-memory registry. -/
theorem migrate_partial_failure (env : MigrateEnv)
    (chats registry : List AnonymousChat) (hne : chats ≠ []) :
    ((migrateAnonymousChatsFlow env chats registry).1 =
      if migratedSpec env 0 chats = [] then internalError "Failed to migrate any chats"
      else ApiResp.success 200 (migratedSpec env 0 chats)) ∧
    ((migrateAnonymousChatsFlow env chats registry).2 =
      registry.filter (fun r => !(migrationRemovesId env 0 chats r.id))) ∧
    (∀ (i : Nat) (c : AnonymousChat), chats[i]? = some c →
      exceptIsOk (env.proc i c) = true →
      ∀ r ∈ (migrateAnonymousChatsFlow env chats registry).2, r.id ≠ c.id) := by
  have hemp : chats.isEmpty = false := by
    cases chats with
    | nil => exact absurd rfl hne
    | cons a l => rfl
  have hflow1 : (migrateAnonymousChatsFlow env chats registry).1 =
      if migratedSpec env 0 chats = [] then internalError "Failed to migrate any chats"
      else ApiResp.success 200 (migratedSpec env 0 chats) := by
    unfold migrateAnonymousChatsFlow
    rw [hemp]
    simp only [Bool.false_eq_true, if_false]
    rw [migrateLoop_fst env chats 0 [] registry]
    simp only [List.nil_append]
    by_cases hz : migratedSpec env 0 chats = []
    · simp [hz]
    · simp [hz, List.isEmpty_iff]
  have hflow2 : (migrateAnonymousChatsFlow env chats registry).2 =
      registry.filter (fun r => !(migrationRemovesId env 0 chats r.id)) := by
    unfold migrateAnonymousChatsFlow
    rw [hemp]
    simp only [Bool.false_eq_true, if_false]
    rw [migrateLoop_fst env chats 0 [] registry, migrateLoop_snd env chats 0 [] registry]
    split <;> rfl
  refine ⟨hflow1, hflow2, ?_⟩
  intro i c hg hok r hr
  rw [hflow2] at hr
  have hp := (List.mem_filter.mp hr).2
  intro hid
  have hrem := migrationRemovesId_of_get env chats 0 i c hg
    (by rw [Nat.zero_add]; exact hok)
  rw [← hid] at hrem
  rw [hrem] at hp
  simp at hp

/-- Submitted chats for the C10 witness: the first one's migration throws. -/
def migChatA : AnonymousChat :=
  { id := "a1", title := "ta", messages := [], createdAt := 0, updatedAt := 0 }

/-- Second submitted chat for the C10 witness: migrates successfully. -/
def migChatB : AnonymousChat :=
  { id := "b1", title := "tb", messages := [], createdAt := 0, updatedAt := 0 }

/-- The durable record produced for `migChatB` by the C10 witness oracle. -/
def migChatRecB : Chat :=
  { id := "db1", title := "tb", userId := "user1", messages := [] }

/-- C10 witness oracle: chat 0 throws, any other chat completes. -/
def migEnvWit : MigrateEnv :=
  { proc := fun i _ => if i = 0 then Except.error () else Except.ok (some migChatRecB) }

/-- Witness for C10: the throwing first chat is skipped but stays in the
registry, the second chat migrates, is listed in the success envelope and is
removed from the registry. -/
theorem migrate_partial_failure_witness :
    (migrateAnonymousChatsFlow migEnvWit [migChatA, migChatB] [migChatA, migChatB]).1 =
      ApiResp.success 200 [migChatRecB] ∧
    (migrateAnonymousChatsFlow migEnvWit [migChatA, migChatB] [migChatA, migChatB]).2 =
      [migChatA] := by
  have h := migrate_partial_failure migEnvWit [migChatA, migChatB] [migChatA, migChatB]
    (by simp)
  exact ⟨h.1.trans rfl, h.2.1.trans rfl⟩

end AoAgent
